import Mathlib

/-
Verification development for the disk_clean repository.

The embedded code is `src/disk_monitor_gui.py`: the two cache classes
(`ScanCache`, the flat file cache, and `DirCache`, the directory aggregate
cache) and the scanning routines (`_scan_disk`, `_scan_directory_recursive`,
`_should_exclude`, `_is_useless_file`, `_get_useless_reason`).

Modelling conventions:
- A Python dict keyed by path strings is an association list (`Store`):
  lookup finds the first binding, insertion replaces an existing binding in
  place or appends at the end, exactly like dict assignment.
- The filesystem is a function from path strings to optional stat records;
  `none` models `os.stat` raising (missing path, permission denied).
- `os.path.normpath` is modelled as the identity: all paths appearing in the
  development are taken to be already in normalized form.  No claim under
  verification depends on path normalization itself.
- Wall-clock values (`cached_time`, ISO formatting of mtimes) are not
  modelled; they are never read back by the scanning logic.
- The cooperative cancellation flag (`self.dir_scanning` / `self.scanning`),
  which a second thread may flip from True to False once, is modelled by a
  fuel counter: each read of the flag consumes one unit and reads True while
  fuel is positive.  This captures every single-flip schedule.
-/

set_option maxHeartbeats 2000000
set_option maxRecDepth 100000

/-- Association-list model of a Python dict keyed by strings. -/
abbrev Store (α : Type) : Type := List (String × α)

/-- Dict lookup: first binding for the key, `none` when absent. -/
def lookupStore {α : Type} : Store α → String → Option α
  | [], _ => none
  | (k', v) :: rest, k => if k' = k then some v else lookupStore rest k

/-- Dict assignment: replace an existing binding in place, else append. -/
def insertStore {α : Type} : Store α → String → α → Store α
  | [], k, v => [(k, v)]
  | (k', v') :: rest, k, v =>
    if k' = k then (k', v) :: rest else (k', v') :: insertStore rest k v

/-! ## String helpers

Python string operations are modelled over the character lists (`String.data`)
of Lean strings, so that every operation computes by kernel reduction.
`charsStartWith pat s` is `s.startswith(pat)` restricted to the prefix data,
`listContainsSub s pat` is Python's `pat in s`, `basenameChars` is
`os.path.basename` for backslash-separated paths, and `extChars` is the
extension component of `os.path.splitext` (last dot of the base name, unless
every character before it is a dot). -/

def charsStartWith : List Char → List Char → Bool
  | [], _ => true
  | _ :: _, [] => false
  | c :: cs, d :: ds => c = d && charsStartWith cs ds

/-- Python `pat in s` over character lists (all patterns used are nonempty). -/
def listContainsSub : List Char → List Char → Bool
  | s, pat =>
    match s with
    | [] => charsStartWith pat []
    | _ :: rest => charsStartWith pat s || listContainsSub rest pat

/-- Python `s.startswith(pat)`. -/
def strStartsWith (s pat : String) : Bool := charsStartWith pat.data s.data

/-- Python `pat in s`. -/
def strContains (s pat : String) : Bool := listContainsSub s.data pat.data

/-- Python `s.lower()` (ASCII case folding suffices for the embedded data). -/
def strLower (s : String) : String := String.mk (s.data.map Char.toLower)

/-- `os.path.basename` for backslash-separated Windows paths. -/
def basenameChars (cs : List Char) : List Char :=
  (cs.reverse.takeWhile (fun c => c ≠ '\\')).reverse

def basenameOf (p : String) : String := String.mk (basenameChars p.data)

/-- Extension component of `os.path.splitext` applied to a base name. -/
def extChars (base : List Char) : List Char :=
  let rev := base.reverse
  let extRev := rev.takeWhile (fun c => c ≠ '.')
  match rev.dropWhile (fun c => c ≠ '.') with
  | [] => []
  | _ :: rootRev => if rootRev.any (fun c => c ≠ '.') then '.' :: extRev.reverse else []

/-- `os.path.splitext(p)[1]`: extension of the base name of `p`. -/
def splitextExt (p : String) : String := String.mk (extChars (basenameChars p.data))

/-! ## Exclusion policy (`DiskMonitorGUI._should_exclude`, lines 812-818)

The configured `self.exclude_dirs` list and the prefix test
`path.startswith(os.path.normpath(exclude))`.  `os.path.normpath` is the
identity on these already-normalized literals and on the normalized paths the
scanner passes in. -/

def exclude_dirs : List String :=
  ["C:\\Windows", "C:\\$Recycle.Bin", "C:\\System Volume Information",
   "C:\\Program Files", "C:\\Program Files (x86)", "C:\\ProgramData"]

/-- `os.path.normpath`, modelled as the identity on normalized paths. -/
def normpath (p : String) : String := p

/-- `_should_exclude(path)`: string-prefix test against each excluded dir. -/
def should_exclude (path : String) : Bool :=
  exclude_dirs.any (fun ex => strStartsWith (normpath path) (normpath ex))

/-! ## File cache (`ScanCache`, lines 80-162)

The filesystem is a function `statF : String → Option FileStat`; `none`
models `os.stat` raising.  The cache value type is a parameter `α` because
the Python dicts stored in `self.cache` are heterogeneous. -/

structure FileStat where
  size : Nat
  mtime : Nat
deriving DecidableEq

/-- Python dict returned by `ScanCache.get_file_signature`. -/
structure FileSig where
  size : Nat
  mtime : Nat
  signature : String
deriving DecidableEq

namespace ScanCache

/-- `ScanCache.get_file_signature` (lines 117-127). -/
def get_file_signature (statF : String → Option FileStat) (file_path : String) :
    Option FileSig :=
  match statF file_path with
  | some st => some ⟨st.size, st.mtime, toString st.size ++ "_" ++ toString st.mtime⟩
  | none => none

/-- `ScanCache.is_cached` (lines 129-142). -/
def is_cached {α : Type} (statF : String → Option FileStat)
    (cache_index : Store FileSig) (cache : Store α) (file_path : String) :
    Bool × Option α :=
  match get_file_signature statF file_path with
  | none => (false, none)
  | some current =>
    match lookupStore cache_index file_path with
    | none => (false, none)
    | some cached =>
      if cached.signature = current.signature then (true, lookupStore cache file_path)
      else (false, none)

/-- `ScanCache.update_cache` (lines 144-149).  Returns the new
`(cache_index, cache)` pair. -/
def update_cache {α : Type} (statF : String → Option FileStat)
    (cache_index : Store FileSig) (cache : Store α) (file_path : String)
    (file_info : α) : Store FileSig × Store α :=
  match get_file_signature statF file_path with
  | some sig => (insertStore cache_index file_path sig, insertStore cache file_path file_info)
  | none => (cache_index, cache)

/-- `DiskMonitorGUI._import_cache` (lines 1138-1156): the imported blob's
`cache` and `cache_index` maps replace the live ones wholesale. -/
def import_cache {α : Type} (blob_cache : Store α) (blob_index : Store FileSig) :
    Store α × Store FileSig :=
  (blob_cache, blob_index)

end ScanCache

/-! ## Directory aggregate cache (`DirCache`, lines 16-77)

`statD : String → Option DirStat` is the `os.stat` view used by
`get_dir_signature`; `none` models `os.stat` raising.  The callers in the
scanner pass the composite cache key `f"{path}_system_{include_system}"`
into `is_cached`/`update_cache`, so `get_dir_signature` is applied to that
key string, exactly as in the source. -/

structure DirStat where
  mtime : Nat
  ino : Nat
deriving DecidableEq

/-- The nested `{'size': ..., 'file_count': ..., 'subdirs': {...}}` dicts
that `_scan_directory_recursive` builds for subdirectories. -/
inductive SubTree : Type where
  | node (size : Nat) (file_count : Nat) (subdirs : List (String × SubTree)) : SubTree

def SubTree.size : SubTree → Nat
  | node s _ _ => s

def SubTree.file_count : SubTree → Nat
  | node _ c _ => c

def SubTree.subdirs : SubTree → List (String × SubTree)
  | node _ _ ch => ch

/-- The dict stored by `DirCache.update_cache` (lines 66-72).  The
`cached_time` wall-clock field is not modelled; it is never read back. -/
structure DirCacheEntry where
  signature : String
  size : Nat
  file_count : Nat
  subdirs : List (String × SubTree)

namespace DirCache

/-- `DirCache.get_dir_signature` (lines 42-48): `f"{st_mtime}_{st_ino}"`,
or `None` when `os.stat` raises. -/
def get_dir_signature (statD : String → Option DirStat) (dir_path : String) :
    Option String :=
  match statD dir_path with
  | some st => some (toString st.mtime ++ "_" ++ toString st.ino)
  | none => none

/-- `DirCache.is_cached` (lines 50-60).  A stored entry's `signature` is
always a string, so comparison with a `None` live signature is a miss. -/
def is_cached (statD : String → Option DirStat) (dir_cache : Store DirCacheEntry)
    (dir_path : String) : Bool × Option DirCacheEntry :=
  match lookupStore dir_cache dir_path with
  | none => (false, none)
  | some cached =>
    match get_dir_signature statD dir_path with
    | some cur => if cached.signature = cur then (true, some cached) else (false, none)
    | none => (false, none)

/-- `DirCache.update_cache` (lines 62-72): stores only when the live
signature of `dir_path` (the composite key at every call site) is
computable; otherwise leaves the cache untouched. -/
def update_cache (statD : String → Option DirStat) (dir_cache : Store DirCacheEntry)
    (dir_path : String) (size file_count : Nat)
    (subdirs : List (String × SubTree)) : Store DirCacheEntry :=
  match get_dir_signature statD dir_path with
  | some sig => insertStore dir_cache dir_path ⟨sig, size, file_count, subdirs⟩
  | none => dir_cache

end DirCache

/-! ## Directory scan (`_scan_directory_recursive`, lines 1331-1380)

The filesystem subtree passed to a scan is a rose tree of entries (the
result of `os.scandir` at each level): a `file` carries the `entry.stat()`
result (`none` = `OSError`/`PermissionError`), a `dir` carries its own
listing (`none` = `os.scandir` raising on that directory, in which case the
source's `except` clause falls through to `update_cache` with zero totals),
and `other` is an entry that is neither a regular file nor a directory under
`follow_symlinks=False` (e.g. a symlink), which the loop body ignores.

The result record mirrors the source's return triple and threaded state,
plus ghost observation fields that never feed back into the computation:
`stat_calls` counts `entry.stat()` attempts in the subtree, `saw_cancel`
records whether some flag check observed `dir_scanning == False`, and
`direct_size`/`direct_count` accumulate exactly the contributions of the
`entry.is_file` branch (the directory's directly counted files), so that
the aggregate invariant can name the direct part of a total. -/

inductive FsEntry : Type where
  | file (name : String) (stat : Option FileStat) : FsEntry
  | dir (name : String) (listing : Option (List FsEntry)) : FsEntry
  | other (name : String) : FsEntry

/-- The composite cache key `f"{dir_path}_system_{include_system}"` built at
lines 1242 and 1336. -/
def dir_cache_key (dir_path : String) (include_system : Bool) : String :=
  dir_path ++ "_system_" ++ (if include_system then "True" else "False")

structure DirScanState where
  total_size : Nat
  file_count : Nat
  subdirs : List (String × SubTree)
  dir_cache : Store DirCacheEntry
  flag_fuel : Nat
  stat_calls : Nat
  saw_cancel : Bool
  direct_size : Nat
  direct_count : Nat

mutual

/-- Embedding of `_scan_directory_recursive(dir_path, include_system)`.
`listing` is the `os.scandir(dir_path)` view of the directory being visited
and `flag_fuel` the cancellation-flag schedule. -/
def scan_directory_recursive (statD : String → Option DirStat) (include_system : Bool)
    (dir_path : String) (listing : Option (List FsEntry))
    (dir_cache : Store DirCacheEntry) (flag_fuel : Nat) : DirScanState :=
  let cache_key := dir_cache_key dir_path include_system
  match DirCache.is_cached statD dir_cache cache_key with
  | (true, some cached) =>
    { total_size := cached.size, file_count := cached.file_count,
      subdirs := cached.subdirs, dir_cache := dir_cache, flag_fuel := flag_fuel,
      stat_calls := 0, saw_cancel := false, direct_size := 0, direct_count := 0 }
  | _ =>
    match listing with
    | none =>
      { total_size := 0, file_count := 0, subdirs := [],
        dir_cache := DirCache.update_cache statD dir_cache cache_key 0 0 [],
        flag_fuel := flag_fuel, stat_calls := 0, saw_cancel := false,
        direct_size := 0, direct_count := 0 }
    | some entries =>
      match scan_entries statD include_system dir_path entries
          { total_size := 0, file_count := 0, subdirs := [], dir_cache := dir_cache,
            flag_fuel := flag_fuel, stat_calls := 0, saw_cancel := false,
            direct_size := 0, direct_count := 0 } with
      | (st, true) => st
      | (st, false) =>
        { st with
          dir_cache := DirCache.update_cache statD st.dir_cache cache_key st.total_size st.file_count st.subdirs }
termination_by sizeOf listing

/-- The `for entry in os.scandir(...)` loop of `_scan_directory_recursive`.
Returns the loop state and whether the loop exited through the cancellation
early return at line 1348 (`true`) or ran to completion (`false`). -/
def scan_entries (statD : String → Option DirStat) (include_system : Bool)
    (dir_path : String) : List FsEntry → DirScanState → DirScanState × Bool
  | [], st => (st, false)
  | e :: rest, st =>
    if st.flag_fuel = 0 then ({ st with saw_cancel := true }, true)
    else
      let st1 := { st with flag_fuel := st.flag_fuel - 1 }
      match e with
      | .file _ fstat =>
        let st2 := { st1 with stat_calls := st1.stat_calls + 1 }
        match fstat with
        | some fst =>
          scan_entries statD include_system dir_path rest
            { st2 with total_size := st2.total_size + fst.size,
                       file_count := st2.file_count + 1,
                       direct_size := st2.direct_size + fst.size,
                       direct_count := st2.direct_count + 1 }
        | none => scan_entries statD include_system dir_path rest st2
      | .other _ => scan_entries statD include_system dir_path rest st1
      | .dir name sub_listing =>
        if !include_system && should_exclude (dir_path ++ "\\" ++ name) then
          scan_entries statD include_system dir_path rest st1
        else
          let r := scan_directory_recursive statD include_system
            (dir_path ++ "\\" ++ name) sub_listing st1.dir_cache st1.flag_fuel
          let st2 :=
            { st1 with
              dir_cache := r.dir_cache, flag_fuel := r.flag_fuel,
              stat_calls := st1.stat_calls + r.stat_calls,
              saw_cancel := st1.saw_cancel || r.saw_cancel }
          let st3 :=
            if r.total_size > 0 ∨ r.file_count > 0 then
              { st2 with
                subdirs := st2.subdirs ++
                  [(name, SubTree.node r.total_size r.file_count r.subdirs)],
                total_size := st2.total_size + r.total_size,
                file_count := st2.file_count + r.file_count }
            else st2
          scan_entries statD include_system dir_path rest st3
termination_by l => sizeOf l

end

/-! ## Useless-file classification (`_is_useless_file` / `_get_useless_reason`,
lines 820-850) -/

def useless_extensions : List String :=
  [".tmp", ".temp", ".log", ".bak", ".old", ".swp", ".swo",
   ".crdownload", ".part", ".tmp1", ".tmp2", ".dmp", ".err",
   ".cache", ".db-journal", ".sqlite-journal"]

def useless_patterns : List String := ["temp", "tmp", "cache", ".old", ".bak", "crash"]

/-- `_is_useless_file(file_path, stat)` (the `stat` argument is unused by
the source body). -/
def is_useless_file (file_path : String) : Bool :=
  let file_name := strLower (basenameOf file_path)
  let ext := strLower (splitextExt file_path)
  if useless_extensions.contains ext then true
  else useless_patterns.any (fun pat => strContains file_name pat)

/-- `_get_useless_reason(file_path)`. -/
def get_useless_reason (file_path : String) : String :=
  let file_name := strLower (basenameOf file_path)
  let ext := strLower (splitextExt file_path)
  if useless_extensions.contains ext then "临时文件 (" ++ ext ++ ")"
  else if strContains file_name "temp" || strContains file_name "tmp" then "临时文件"
  else if strContains file_name "cache" then "缓存文件"
  else if strContains file_name ".old" || strContains file_name ".bak" then "备份文件"
  else "可疑文件"

/-! ## Disk scan (`_scan_disk`, lines 664-768)

The `os.walk('C:\\')` enumeration (with its directory pruning through
`_should_exclude`) is modelled as the flattened list of candidate file paths
the walk yields, each with its `os.path.islink` answer and `os.stat` result.
Per-file work — link skip, cache consultation, large-file and useless-file
classification, cache writes — is embedded faithfully on top of that list.
The `events` field is a ghost log recording, in order, the observable
persistence and progress side effects (`_update_status` every 100 processed
files, `self.cache.save_cache()` every 500 and once in the `finally`
block).  `saveDirCache` is the corresponding event for
`self.dir_cache.save_cache()`; it is part of the event vocabulary so that
statements about which caches `_scan_disk` persists can be expressed.
GUI tree insertions and `_save_last_scan` (a report file, not a cache) are
not modelled.  `total_scanned` and `events` are local to one `_scan_disk`
call, so `scan_disk` resets them on entry. -/

/-- One heterogeneous `file_info` dict: `modified`/`type` appear in
large-file entries, `reason`/`age_days` in useless-file entries. -/
structure FileInfo where
  path : String
  size : Nat
  modified : Option Nat
  ftype : Option String
  reason : Option String
  age_days : Option Nat
  source : String
deriving DecidableEq

inductive ScanEv : Type where
  | statusUpdate : ScanEv
  | saveFileCache : ScanEv
  | saveDirCache : ScanEv
deriving DecidableEq

structure ScanSt where
  large_files : List FileInfo
  useless_files : List FileInfo
  cache_index : Store FileSig
  cache : Store FileInfo
  total_scanned : Nat
  cached_count : Nat
  scan_fuel : Nat
  events : List ScanEv

/-- `_update_from_cache(cached_info)` (lines 804-810): append a cache hit to
the large-file results if big enough and not already present. -/
def update_from_cache (min_size : Nat) (info : FileInfo) (st : ScanSt) : ScanSt :=
  if info.size ≥ min_size then
    let info' := { info with source := "缓存" }
    if info' ∈ st.large_files then st
    else { st with large_files := st.large_files ++ [info'] }
  else st

/-- The loop of `_load_from_cache(min_size)` (lines 770-802) over a snapshot
of the cache items. -/
def load_from_cache_loop (statF : String → Option FileStat) (min_size : Nat) :
    List (String × FileInfo) → ScanSt → ScanSt
  | [], st => st
  | (p, info) :: rest, st =>
    if st.scan_fuel = 0 then st
    else
      let st0 := { st with scan_fuel := st.scan_fuel - 1 }
      match ScanCache.get_file_signature statF p, lookupStore st0.cache_index p with
      | some cur, some cs =>
        if cur.signature ≠ cs.signature then load_from_cache_loop statF min_size rest st0
        else
          let st1 :=
            if info.size ≥ min_size then
              { st0 with large_files := st0.large_files ++ [{ info with source := "缓存" }] }
            else st0
          let st2 :=
            if info.reason.isSome then
              { st1 with useless_files := st1.useless_files ++ [{ info with source := "缓存" }] }
            else st1
          load_from_cache_loop statF min_size rest st2
      | _, _ => load_from_cache_loop statF min_size rest st0

def load_from_cache (statF : String → Option FileStat) (min_size : Nat)
    (st : ScanSt) : ScanSt :=
  load_from_cache_loop statF min_size st.cache st

/-- One file yielded by the flattened `os.walk` enumeration. -/
structure WalkFile where
  path : String
  isLink : Bool
  stat : Option FileStat

/-- The per-file body of the `_scan_disk` walk loop (lines 684-757). -/
def scan_disk_step (statF : String → Option FileStat) (now : Nat)
    (use_cache : Bool) (min_size : Nat) (f : WalkFile) (st : ScanSt) : ScanSt :=
  if f.isLink then st
  else
    match (if use_cache then ScanCache.is_cached statF st.cache_index st.cache f.path
           else (false, none)) with
    | (true, some info) =>
      update_from_cache min_size info { st with cached_count := st.cached_count + 1 }
    | _ =>
      match f.stat with
      | none => st
      | some fst =>
        let st1 : ScanSt :=
          if fst.size ≥ min_size then
            let ext := strLower (splitextExt f.path)
            let info : FileInfo :=
              { path := f.path, size := fst.size, modified := some fst.mtime,
                ftype := some (if ext = "" then "未知" else ext),
                reason := none, age_days := none, source := "扫描" }
            let upd := ScanCache.update_cache statF st.cache_index st.cache f.path info
            { st with large_files := st.large_files ++ [info],
                      cache_index := upd.1, cache := upd.2 }
          else st
        let st2 : ScanSt :=
          if is_useless_file f.path then
            let info : FileInfo :=
              { path := f.path, size := fst.size, modified := none, ftype := none,
                reason := some (get_useless_reason f.path),
                age_days := some ((now - fst.mtime) / 86400), source := "扫描" }
            let upd := ScanCache.update_cache statF st1.cache_index st1.cache f.path info
            { st1 with useless_files := st1.useless_files ++ [info],
                       cache_index := upd.1, cache := upd.2 }
          else st1
        let st3 : ScanSt := { st2 with total_scanned := st2.total_scanned + 1 }
        let st4 : ScanSt :=
          if st3.total_scanned % 100 = 0 then
            { st3 with events := st3.events ++ [ScanEv.statusUpdate] }
          else st3
        if st4.total_scanned % 500 = 0 then
          { st4 with events := st4.events ++ [ScanEv.saveFileCache] }
        else st4

/-- The walk loop of `_scan_disk`: the cancellation flag is read once per
file; reading `False` breaks out of the loop. -/
def scan_disk_loop (statF : String → Option FileStat) (now : Nat)
    (use_cache : Bool) (min_size : Nat) : List WalkFile → ScanSt → ScanSt
  | [], st => st
  | f :: rest, st =>
    if st.scan_fuel = 0 then st
    else scan_disk_loop statF now use_cache min_size rest
      (scan_disk_step statF now use_cache min_size f { st with scan_fuel := st.scan_fuel - 1 })

/-- Embedding of `_scan_disk(use_cache)`: optional cache preload, the walk
loop, and the unconditional `finally` save of the file cache. -/
def scan_disk (statF : String → Option FileStat) (now : Nat) (use_cache : Bool)
    (min_size_mb : Nat) (walk : List WalkFile) (st0 : ScanSt) : ScanSt :=
  let min_size := min_size_mb * 1024 * 1024
  let stA := { st0 with total_scanned := 0, events := [] }
  let stB := if use_cache then load_from_cache statF min_size stA else stA
  let stC := scan_disk_loop statF now use_cache min_size walk stB
  { stC with events := stC.events ++ [ScanEv.saveFileCache] }

/-! ## Aggregate-invariant vocabulary

`subdirs_size_sum`/`subdirs_count_sum` add up the `size`/`file_count`
fields of a `subdirs` mapping.  `SubTreeWF` states the spec's aggregate
invariant for one summary node: its totals decompose as a direct
contribution plus the children's totals, recursively. -/

def subdirs_size_sum (l : List (String × SubTree)) : Nat :=
  l.foldr (fun p acc => p.2.size + acc) 0

def subdirs_count_sum (l : List (String × SubTree)) : Nat :=
  l.foldr (fun p acc => p.2.file_count + acc) 0

inductive SubTreeWF : SubTree → Prop where
  | node (direct_size direct_count size file_count : Nat)
      (subdirs : List (String × SubTree))
      (hsize : size = direct_size + subdirs_size_sum subdirs)
      (hcount : file_count = direct_count + subdirs_count_sum subdirs)
      (hch : ∀ p ∈ subdirs, SubTreeWF p.2) :
      SubTreeWF (SubTree.node size file_count subdirs)

/-- The aggregate invariant for a stored directory-cache entry. -/
def EntryWF (e : DirCacheEntry) : Prop :=
  SubTreeWF (SubTree.node e.size e.file_count e.subdirs)

/-- Every entry reachable in a directory cache satisfies the invariant. -/
def CacheWF (c : Store DirCacheEntry) : Prop :=
  ∀ k e, lookupStore c k = some e → EntryWF e

/-! ## Store lemmas -/

theorem lookupStore_insertStore {α : Type} (m : Store α) (k k' : String) (v : α) :
    lookupStore (insertStore m k v) k' = if k = k' then some v else lookupStore m k' := by
  induction m with
  | nil => by_cases h : k = k' <;> simp [insertStore, lookupStore, h]
  | cons hd tl ih =>
    obtain ⟨k0, v0⟩ := hd
    by_cases h0 : k0 = k
    · subst h0
      by_cases h : k0 = k' <;> simp [insertStore, lookupStore, h]
    · by_cases h : k0 = k'
      · subst h
        have hkk : ¬k = k0 := fun hk => h0 hk.symm
        simp [insertStore, lookupStore, h0, hkk]
      · simp [insertStore, lookupStore, h0, h, ih]

/-! ## Claims about the file cache (C5, C6, C9) -/

/-- C5 (counterexample): `ScanCache.update_cache` is not unconditional — when
the live metadata of the path cannot be read (`statF` returns `none`), the
call leaves the old entry in place instead of replacing it with the new
one. -/
theorem claim_C5_counterexample :
    (ScanCache.update_cache (fun _ => none) ([] : Store FileSig)
        [("p", "old")] "p" "new").2 = [("p", "old")] ∧
    lookupStore (ScanCache.update_cache (fun _ => none) ([] : Store FileSig)
        [("p", "old")] "p" "new").2 "p" ≠ some "new" := by
  constructor
  · rfl
  · decide

/-- C5 (amended): `ScanCache.update_cache` replaces any existing entry for
the path unconditionally in the prior cache state, provided the path's live
signature is computable; when the metadata cannot be read the call is a
no-op and the prior entry (if any) is retained. -/
theorem claim_C5_record_replaces {α : Type} (statF : String → Option FileStat)
    (cache_index : Store FileSig) (cache : Store α) (p : String) (info : α) :
    (∀ st : FileStat, statF p = some st →
      lookupStore (ScanCache.update_cache statF cache_index cache p info).2 p = some info) ∧
    (statF p = none →
      ScanCache.update_cache statF cache_index cache p info = (cache_index, cache)) := by
  constructor
  · intro st h
    simp [ScanCache.update_cache, ScanCache.get_file_signature, h, lookupStore_insertStore]
  · intro h
    simp [ScanCache.update_cache, ScanCache.get_file_signature, h]

theorem claim_C5_witness :
    lookupStore (ScanCache.update_cache (fun _ => some ⟨3, 4⟩) ([] : Store FileSig)
        [("p", "old")] "p" "new").2 "p" = some "new" :=
  (claim_C5_record_replaces (fun _ => some ⟨3, 4⟩) [] [("p", "old")] "p" "new").1 ⟨3, 4⟩ rfl

/-- C6: when a path's metadata cannot be read, `ScanCache.get_file_signature`
returns no signature and `ScanCache.is_cached` returns the invalid result
`(False, None)` — an automatic cache miss, with no error. -/
theorem claim_C6_no_signature_is_miss {α : Type} (statF : String → Option FileStat)
    (cache_index : Store FileSig) (cache : Store α) (p : String)
    (h : statF p = none) :
    ScanCache.get_file_signature statF p = none ∧
    ScanCache.is_cached statF cache_index cache p = (false, (none : Option α)) := by
  simp [ScanCache.get_file_signature, ScanCache.is_cached, h]

theorem claim_C6_witness :
    ScanCache.get_file_signature (fun _ => none) "x" = none ∧
    ScanCache.is_cached (fun _ => none) ([] : Store FileSig) ([] : Store String) "x"
      = (false, none) :=
  claim_C6_no_signature_is_miss (fun _ => none) [] [] "x" rfl

/-- C9: when a path is present in `cache_index` with a signature matching the
live one but absent from `cache` (a state `_import_cache` can produce, since
it installs the blob's two maps independently), `ScanCache.is_cached`
returns `(True, None)` — a valid hit carrying no entry. -/
theorem claim_C9_valid_hit_no_entry {α : Type} (statF : String → Option FileStat)
    (cache_index : Store FileSig) (cache : Store α) (p : String)
    (st : FileStat) (cs : FileSig)
    (h1 : statF p = some st)
    (h2 : lookupStore cache_index p = some cs)
    (h3 : cs.signature = toString st.size ++ "_" ++ toString st.mtime)
    (h4 : lookupStore cache p = none) :
    ScanCache.is_cached statF cache_index cache p = (true, (none : Option α)) := by
  simp [ScanCache.is_cached, ScanCache.get_file_signature, h1, h2, h3, h4]

theorem claim_C9_witness :
    ScanCache.is_cached (fun _ => some ⟨1, 2⟩)
      (ScanCache.import_cache ([] : Store String) [("p", ⟨1, 2, "1_2"⟩)]).2
      (ScanCache.import_cache ([] : Store String) [("p", ⟨1, 2, "1_2"⟩)]).1 "p"
      = (true, (none : Option String)) :=
  claim_C9_valid_hit_no_entry (fun _ => some ⟨1, 2⟩) _ _ "p" ⟨1, 2⟩ ⟨1, 2, "1_2"⟩
    rfl rfl (by decide) rfl

/-! ## Claim about the exclusion policy (C10) -/

/-- C10: `_should_exclude` matches by string prefix, not by directory
containment: every path whose normalized string starts with the normalized
string of a configured excluded directory is excluded, and in particular the
sibling `C:\Windows Updates` is excluded against `C:\Windows` even though it
is not that directory nor inside it (no trailing separator match). -/
theorem claim_C10_string_prefix_exclusion :
    (∀ p ex, ex ∈ exclude_dirs → strStartsWith (normpath p) (normpath ex) = true →
      should_exclude p = true) ∧
    should_exclude "C:\\Windows Updates" = true ∧
    strStartsWith "C:\\Windows Updates" ("C:\\Windows" ++ "\\") = false ∧
    "C:\\Windows Updates" ≠ "C:\\Windows" := by
  refine ⟨?_, by decide, by decide, by decide⟩
  intro p ex hmem hpre
  simp only [should_exclude, List.any_eq_true]
  exact ⟨ex, hmem, hpre⟩

theorem claim_C10_witness :
    should_exclude "C:\\Windows Updates" = true :=
  claim_C10_string_prefix_exclusion.1 "C:\\Windows Updates" "C:\\Windows"
    (by decide) (by decide)

/-! ## Claim about policy isolation (C7) -/

theorem string_data_append (s t : String) : (s ++ t).data = s.data ++ t.data := rfl

theorem dir_cache_key_true_snd (p : String) :
    (dir_cache_key p true).data.reverse.get? 1 = some 'u' := by
  show (((p ++ "_system_") ++ "True").data).reverse.get? 1 = some 'u'
  rw [string_data_append, List.reverse_append, List.get?_append (by decide)]
  decide

theorem dir_cache_key_false_snd (p : String) :
    (dir_cache_key p false).data.reverse.get? 1 = some 's' := by
  show (((p ++ "_system_") ++ "False").data).reverse.get? 1 = some 's'
  rw [string_data_append, List.reverse_append, List.get?_append (by decide)]
  decide

theorem dir_cache_key_policy_ne (p q : String) :
    dir_cache_key p true ≠ dir_cache_key q false := by
  intro h
  have h1 := dir_cache_key_true_snd p
  rw [h, dir_cache_key_false_snd q] at h1
  simp at h1

/-- C7: the include-system and exclude-system policies always produce
distinct composite cache keys (for any pair of paths), and a directory-cache
lookup under one policy is unaffected by a `DirCache.update_cache` recorded
under the other policy — it can never return the other policy's summary. -/
theorem claim_C7_policy_isolation :
    (∀ p q : String, dir_cache_key p true ≠ dir_cache_key q false) ∧
    (∀ (statD : String → Option DirStat) (c : Store DirCacheEntry)
        (p q : String) (b : Bool) (size file_count : Nat)
        (subdirs : List (String × SubTree)),
      DirCache.is_cached statD
        (DirCache.update_cache statD c (dir_cache_key q (!b)) size file_count subdirs)
        (dir_cache_key p b) =
      DirCache.is_cached statD c (dir_cache_key p b)) := by
  refine ⟨dir_cache_key_policy_ne, ?_⟩
  intro statD c p q b size fc subs
  have hkey : dir_cache_key q (!b) ≠ dir_cache_key p b := by
    cases b
    · simpa using dir_cache_key_policy_ne q p
    · simpa using fun hh => dir_cache_key_policy_ne p q hh.symm
  unfold DirCache.update_cache
  cases hsig : DirCache.get_dir_signature statD (dir_cache_key q (!b)) with
  | none => rfl
  | some s =>
    unfold DirCache.is_cached
    rw [lookupStore_insertStore, if_neg hkey]

/-! ## Claim C1: directory cache reuse (code bug)

Both `DirCache.is_cached` and `DirCache.update_cache` are invoked on the
composite key string `f"{dir_path}_system_{include_system}"`, and
`get_dir_signature` applies `os.stat` to that key string — not to
`dir_path`.  Since no such filesystem path exists, the signature is always
`None`: `update_cache` never stores anything and every scan re-enumerates
and re-stats the whole subtree. -/

/-- C1 (code evaluated at the failing input): scanning an unchanged
directory `R` (statable, containing one 100-byte file) leaves the directory
cache empty, the cache lookup for the recorded key misses, and a repeated
scan performs the same one `entry.stat()` call again instead of adopting a
cached summary — because the composite key `R_system_True` has no live
signature even though `R` itself does. -/
theorem claim_C1_cache_never_reused :
    (scan_directory_recursive (fun s => if s = "R" then some ⟨5, 7⟩ else none) true "R"
        (some [FsEntry.file "a" (some ⟨100, 3⟩)]) [] 9).dir_cache = [] ∧
    (scan_directory_recursive (fun s => if s = "R" then some ⟨5, 7⟩ else none) true "R"
        (some [FsEntry.file "a" (some ⟨100, 3⟩)]) [] 9).stat_calls = 1 ∧
    (scan_directory_recursive (fun s => if s = "R" then some ⟨5, 7⟩ else none) true "R"
        (some [FsEntry.file "a" (some ⟨100, 3⟩)])
        (scan_directory_recursive (fun s => if s = "R" then some ⟨5, 7⟩ else none) true "R"
          (some [FsEntry.file "a" (some ⟨100, 3⟩)]) [] 9).dir_cache 9).stat_calls = 1 ∧
    DirCache.is_cached (fun s => if s = "R" then some ⟨5, 7⟩ else none) []
      (dir_cache_key "R" true) = (false, none) ∧
    DirCache.get_dir_signature (fun s => if s = "R" then some ⟨5, 7⟩ else none)
      (dir_cache_key "R" true) = none ∧
    DirCache.get_dir_signature (fun s => if s = "R" then some ⟨5, 7⟩ else none) "R"
      = some "5_7" := by
  refine ⟨?_, ?_, ?_, ?_, ?_, ?_⟩ <;>
    simp [scan_directory_recursive, scan_entries, DirCache.is_cached,
      DirCache.get_dir_signature, DirCache.update_cache, dir_cache_key, lookupStore] <;>
    decide

/-! ## Claim C4: per-entry errors (corrected) -/

/-- C4 (counterexample): a directory in which one entry fails to stat
produces exactly the same summary, cache state and totals as a fully
successful scan of the directory without that entry — there is no
partial/low-confidence status anywhere in the result or in the cache, so the
two are observably indistinguishable. -/
theorem claim_C4_counterexample :
    ((scan_directory_recursive (fun _ => none) true "R"
        (some [FsEntry.file "a" (some ⟨100, 0⟩), FsEntry.file "bad" none]) [] 10).total_size,
     (scan_directory_recursive (fun _ => none) true "R"
        (some [FsEntry.file "a" (some ⟨100, 0⟩), FsEntry.file "bad" none]) [] 10).file_count,
     (scan_directory_recursive (fun _ => none) true "R"
        (some [FsEntry.file "a" (some ⟨100, 0⟩), FsEntry.file "bad" none]) [] 10).subdirs,
     (scan_directory_recursive (fun _ => none) true "R"
        (some [FsEntry.file "a" (some ⟨100, 0⟩), FsEntry.file "bad" none]) [] 10).dir_cache) =
    ((scan_directory_recursive (fun _ => none) true "R"
        (some [FsEntry.file "a" (some ⟨100, 0⟩)]) [] 10).total_size,
     (scan_directory_recursive (fun _ => none) true "R"
        (some [FsEntry.file "a" (some ⟨100, 0⟩)]) [] 10).file_count,
     (scan_directory_recursive (fun _ => none) true "R"
        (some [FsEntry.file "a" (some ⟨100, 0⟩)]) [] 10).subdirs,
     (scan_directory_recursive (fun _ => none) true "R"
        (some [FsEntry.file "a" (some ⟨100, 0⟩)]) [] 10).dir_cache) ∧
    (scan_directory_recursive (fun _ => none) true "R"
        (some [FsEntry.file "a" (some ⟨100, 0⟩), FsEntry.file "bad" none]) [] 10).total_size
      = 100 := by
  constructor <;>
    simp [scan_directory_recursive, scan_entries, DirCache.is_cached,
      DirCache.get_dir_signature, DirCache.update_cache, dir_cache_key, lookupStore]

/-- C4 (amended): an entry whose `entry.stat()` fails is skipped and the
loop continues with the remaining entries; the running aggregate is built
from the accessible entries only, and nothing in the state marks the
summary as partial (only the ghost stat counter and the flag-fuel change
across the skipped entry). -/
theorem claim_C4_error_entry_skipped (statD : String → Option DirStat)
    (include_system : Bool) (dir_path nm : String) (rest : List FsEntry)
    (st : DirScanState) (f : Nat) :
    scan_entries statD include_system dir_path (FsEntry.file nm none :: rest)
      { st with flag_fuel := f + 1 } =
    scan_entries statD include_system dir_path rest
      { st with flag_fuel := f, stat_calls := st.stat_calls + 1 } := by
  simp [scan_entries]

/-! ## Claim C2: cancellation safety -/

theorem dir_is_cached_key_none (statD : String → Option DirStat) (b : Bool)
    (H : ∀ q, statD (dir_cache_key q b) = none)
    (c : Store DirCacheEntry) (q : String) :
    DirCache.is_cached statD c (dir_cache_key q b) = (false, none) := by
  unfold DirCache.is_cached
  cases lookupStore c (dir_cache_key q b) <;>
    simp [DirCache.get_dir_signature, H q]

theorem dir_update_cache_key_none (statD : String → Option DirStat) (b : Bool)
    (H : ∀ q, statD (dir_cache_key q b) = none)
    (c : Store DirCacheEntry) (q : String) (s fc : Nat)
    (subs : List (String × SubTree)) :
    DirCache.update_cache statD c (dir_cache_key q b) s fc subs = c := by
  simp [DirCache.update_cache, DirCache.get_dir_signature, H q]

theorem scan_entries_cache_fixed (statD : String → Option DirStat) (b : Bool)
    (H : ∀ q, statD (dir_cache_key q b) = none) :
    ∀ (p : String) (l : List FsEntry) (st : DirScanState),
      ((scan_entries statD b p l st).1).dir_cache = st.dir_cache := by
  have hic := dir_is_cached_key_none statD b H
  have huc := dir_update_cache_key_none statD b H
  refine scan_entries.induct statD b
    (fun p listing c f => (scan_directory_recursive statD b p listing c f).dir_cache = c)
    (fun p l st => ((scan_entries statD b p l st).1).dir_cache = st.dir_cache)
    ?_ ?_ ?_ ?_ ?_ ?_ ?_ ?_ ?_ ?_ ?_
  · intro p listing c f
    dsimp only
    intro cached hhit
    rw [hic c p] at hhit
    simp at hhit
  · intro p c f
    dsimp only
    intro _
    simp [scan_directory_recursive, hic, huc]
  · intro p c f
    dsimp only
    intro entries st heq _ ih
    simp [scan_directory_recursive, hic, heq]
    rw [heq] at ih
    simpa using ih
  · intro p c f
    dsimp only
    intro entries st heq _ ih
    simp [scan_directory_recursive, hic, heq, huc]
    rw [heq] at ih
    simpa using ih
  · intro p st
    simp [scan_entries]
  · intro p e rest st hf
    simp [scan_entries, hf]
  · intro p rest st hf
    dsimp only
    intro name fstat ih
    simp [scan_entries, hf]
    simpa using ih
  · intro p rest st hf
    dsimp only
    intro name ih
    simp [scan_entries, hf]
    simpa using ih
  · intro p rest st hf
    dsimp only
    intro name ih
    simp [scan_entries, hf]
    simpa using ih
  · intro p rest st hf
    dsimp only
    intro name sub_listing hexc ih
    simp [scan_entries, hf, hexc]
    simpa using ih
  · intro p rest st hf
    dsimp only
    intro name sub_listing hexc ih1 ih2 ih3 ih4
    simp [scan_entries, hf, hexc]
    split <;> simp_all

theorem scan_directory_cache_fixed (statD : String → Option DirStat) (b : Bool)
    (H : ∀ q, statD (dir_cache_key q b) = none)
    (p : String) (listing : Option (List FsEntry)) (c : Store DirCacheEntry)
    (f : Nat) :
    (scan_directory_recursive statD b p listing c f).dir_cache = c := by
  have hic := dir_is_cached_key_none statD b H
  have huc := dir_update_cache_key_none statD b H
  have hent := scan_entries_cache_fixed statD b H
  unfold scan_directory_recursive
  simp only [hic]
  cases listing with
  | none => simp [huc]
  | some entries =>
    dsimp only
    have h1 := hent p entries
      { total_size := 0, file_count := 0, subdirs := [], dir_cache := c,
        flag_fuel := f, stat_calls := 0, saw_cancel := false,
        direct_size := 0, direct_count := 0 }
    cases heq : scan_entries statD b p entries
        { total_size := 0, file_count := 0, subdirs := [], dir_cache := c,
          flag_fuel := f, stat_calls := 0, saw_cancel := false,
          direct_size := 0, direct_count := 0 } with
    | mk st bb =>
      rw [heq] at h1
      simp at h1
      cases bb <;> simp [huc, h1]

/-- C2 (counterexample): cancellation does not protect ancestors.  With a
filesystem entry at the composite key string `R_system_True`, scanning `R`
(whose only listing entry is the subdirectory `R\S`) with one unit of flag
fuel observes the cancellation flag inside `R\S` (its own visit reports
`saw_cancel`), yet the pass still stores a partial `(0, 0)` summary for the
ancestor `R`: after the interrupted child returns, `R`'s loop has no further
entries, so no flag check intervenes before the fall-through
`update_cache` at line 1379. -/
theorem claim_C2_counterexample :
    (scan_directory_recursive
        (fun s => if s = "R_system_True" then some ⟨1, 2⟩ else none) true
        ("R" ++ "\\" ++ "S") (some [FsEntry.file "a" none]) [] 0).saw_cancel = true ∧
    (scan_directory_recursive
        (fun s => if s = "R_system_True" then some ⟨1, 2⟩ else none) true "R"
        (some [FsEntry.dir "S" (some [FsEntry.file "a" none])]) [] 1).saw_cancel = true ∧
    (scan_directory_recursive
        (fun s => if s = "R_system_True" then some ⟨1, 2⟩ else none) true "R"
        (some [FsEntry.dir "S" (some [FsEntry.file "a" none])]) [] 1).dir_cache
      ≠ ([] : Store DirCacheEntry) ∧
    (lookupStore (scan_directory_recursive
        (fun s => if s = "R_system_True" then some ⟨1, 2⟩ else none) true "R"
        (some [FsEntry.dir "S" (some [FsEntry.file "a" none])]) [] 1).dir_cache
      (dir_cache_key "R" true)).map (fun e => (e.size, e.file_count, e.subdirs))
      = some (0, 0, []) := by
  refine ⟨?_, ?_, ?_, ?_⟩ <;>
    simp [scan_directory_recursive, scan_entries, DirCache.is_cached,
      DirCache.get_dir_signature, DirCache.update_cache, dir_cache_key,
      lookupStore, insertStore]

/-- C2 (amended): whenever the cancellation flag is observed while a
directory is being enumerated (the loop exits through the early return at
line 1348), that directory's visit returns the partial loop state as-is —
the results accumulated so far are reported and its own `update_cache` is
skipped; and provided no filesystem path has the composite cache-key form
`path ++ "_system_" ++ bool` (true of every realistic filesystem), the
whole pass leaves the directory cache untouched, ancestors included.
Without that proviso an ancestor whose interrupted child was its last
listing entry still writes a partial summary, as the counterexample
shows. -/
theorem claim_C2_cancellation_behavior (statD : String → Option DirStat)
    (include_system : Bool) :
    (∀ (dir_path : String) (entries : List FsEntry)
        (dir_cache : Store DirCacheEntry) (flag_fuel : Nat) (st : DirScanState),
      (DirCache.is_cached statD dir_cache (dir_cache_key dir_path include_system)).1
          = false →
      scan_entries statD include_system dir_path entries
          { total_size := 0, file_count := 0, subdirs := [], dir_cache := dir_cache,
            flag_fuel := flag_fuel, stat_calls := 0, saw_cancel := false,
            direct_size := 0, direct_count := 0 } = (st, true) →
      scan_directory_recursive statD include_system dir_path (some entries)
          dir_cache flag_fuel = st) ∧
    ((∀ q, statD (dir_cache_key q include_system) = none) →
      ∀ (dir_path : String) (listing : Option (List FsEntry))
        (dir_cache : Store DirCacheEntry) (flag_fuel : Nat),
        (scan_directory_recursive statD include_system dir_path listing dir_cache
            flag_fuel).dir_cache = dir_cache) := by
  constructor
  · intro dir_path entries dir_cache flag_fuel st hmiss heq
    cases hh : DirCache.is_cached statD dir_cache (dir_cache_key dir_path include_system) with
    | mk hit data =>
      rw [hh] at hmiss
      simp only at hmiss
      subst hmiss
      unfold scan_directory_recursive
      dsimp only
      rw [hh]
      dsimp only
      rw [heq]
  · intro H dir_path listing dir_cache flag_fuel
    exact scan_directory_cache_fixed statD include_system H dir_path listing
      dir_cache flag_fuel

theorem claim_C2_witness :
    scan_directory_recursive (fun _ => none) true "R"
        (some [FsEntry.file "a" none]) [] 0 =
      { total_size := 0, file_count := 0, subdirs := [], dir_cache := [],
        flag_fuel := 0, stat_calls := 0, saw_cancel := true,
        direct_size := 0, direct_count := 0 } ∧
    (scan_directory_recursive (fun _ => none) true "R"
        (some [FsEntry.file "a" none]) [] 0).dir_cache = [] :=
  ⟨(claim_C2_cancellation_behavior (fun _ => none) true).1 "R"
      [FsEntry.file "a" none] [] 0 _
      (by simp [DirCache.is_cached, lookupStore])
      (by simp [scan_entries]),
   (claim_C2_cancellation_behavior (fun _ => none) true).2 (fun q => rfl) "R"
      (some [FsEntry.file "a" none]) [] 0⟩

/-! ## Claim C3: the aggregate invariant -/

theorem subdirs_size_sum_append (l1 l2 : List (String × SubTree)) :
    subdirs_size_sum (l1 ++ l2) = subdirs_size_sum l1 + subdirs_size_sum l2 := by
  induction l1 with
  | nil => simp [subdirs_size_sum]
  | cons hd tl ih => simp [subdirs_size_sum] at ih ⊢; omega

theorem subdirs_count_sum_append (l1 l2 : List (String × SubTree)) :
    subdirs_count_sum (l1 ++ l2) = subdirs_count_sum l1 + subdirs_count_sum l2 := by
  induction l1 with
  | nil => simp [subdirs_count_sum]
  | cons hd tl ih => simp [subdirs_count_sum] at ih ⊢; omega

theorem subdirs_size_sum_singleton (x : String × SubTree) :
    subdirs_size_sum [x] = x.2.size := by
  simp [subdirs_size_sum]

theorem subdirs_count_sum_singleton (x : String × SubTree) :
    subdirs_count_sum [x] = x.2.file_count := by
  simp [subdirs_count_sum]

theorem CacheWF_insertStore (c : Store DirCacheEntry) (k : String)
    (e : DirCacheEntry) (hc : CacheWF c) (he : EntryWF e) :
    CacheWF (insertStore c k e) := by
  intro k' e' h
  rw [lookupStore_insertStore] at h
  by_cases hk : k = k'
  · rw [if_pos hk] at h
    cases h
    exact he
  · rw [if_neg hk] at h
    exact hc k' e' h

theorem CacheWF_update_cache (statD : String → Option DirStat)
    (c : Store DirCacheEntry) (key : String) (s fc : Nat)
    (subs : List (String × SubTree)) (hc : CacheWF c)
    (hwf : SubTreeWF (SubTree.node s fc subs)) :
    CacheWF (DirCache.update_cache statD c key s fc subs) := by
  unfold DirCache.update_cache
  cases DirCache.get_dir_signature statD key with
  | none => exact hc
  | some sig => exact CacheWF_insertStore c key ⟨sig, s, fc, subs⟩ hc hwf

theorem dir_is_cached_hit_lookup (statD : String → Option DirStat)
    (c : Store DirCacheEntry) (key : String) (cached : DirCacheEntry)
    (h : DirCache.is_cached statD c key = (true, some cached)) :
    lookupStore c key = some cached := by
  unfold DirCache.is_cached at h
  cases hl : lookupStore c key with
  | none => rw [hl] at h; simp at h
  | some e =>
    rw [hl] at h
    cases hs : DirCache.get_dir_signature statD key with
    | none => rw [hs] at h; simp at h
    | some cur =>
      rw [hs] at h
      dsimp only at h
      by_cases hsig : e.signature = cur
      · rw [if_pos hsig] at h
        simp only [Prod.mk.injEq, Option.some.injEq] at h
        rw [h.2]
      · rw [if_neg hsig] at h
        simp at h

theorem SubTreeWF_zero : SubTreeWF (SubTree.node 0 0 []) := by
  refine SubTreeWF.node 0 0 0 0 [] ?_ ?_ ?_ <;>
    simp [subdirs_size_sum, subdirs_count_sum]

theorem scan_aggregate_invariant (statD : String → Option DirStat) (b : Bool) :
    ∀ (p : String) (listing : Option (List FsEntry)) (c : Store DirCacheEntry)
      (f : Nat),
      CacheWF c →
        CacheWF ((scan_directory_recursive statD b p listing c f).dir_cache) ∧
        SubTreeWF (SubTree.node
          (scan_directory_recursive statD b p listing c f).total_size
          (scan_directory_recursive statD b p listing c f).file_count
          (scan_directory_recursive statD b p listing c f).subdirs) ∧
        ((DirCache.is_cached statD c (dir_cache_key p b)).1 = false →
          (scan_directory_recursive statD b p listing c f).total_size =
            (scan_directory_recursive statD b p listing c f).direct_size +
              subdirs_size_sum (scan_directory_recursive statD b p listing c f).subdirs ∧
          (scan_directory_recursive statD b p listing c f).file_count =
            (scan_directory_recursive statD b p listing c f).direct_count +
              subdirs_count_sum (scan_directory_recursive statD b p listing c f).subdirs) := by
  refine scan_directory_recursive.induct statD b
    (fun p listing c f =>
      CacheWF c →
        CacheWF ((scan_directory_recursive statD b p listing c f).dir_cache) ∧
        SubTreeWF (SubTree.node
          (scan_directory_recursive statD b p listing c f).total_size
          (scan_directory_recursive statD b p listing c f).file_count
          (scan_directory_recursive statD b p listing c f).subdirs) ∧
        ((DirCache.is_cached statD c (dir_cache_key p b)).1 = false →
          (scan_directory_recursive statD b p listing c f).total_size =
            (scan_directory_recursive statD b p listing c f).direct_size +
              subdirs_size_sum (scan_directory_recursive statD b p listing c f).subdirs ∧
          (scan_directory_recursive statD b p listing c f).file_count =
            (scan_directory_recursive statD b p listing c f).direct_count +
              subdirs_count_sum (scan_directory_recursive statD b p listing c f).subdirs))
    (fun p l st =>
      CacheWF st.dir_cache →
      (∀ q ∈ st.subdirs, SubTreeWF q.2) →
      st.total_size = st.direct_size + subdirs_size_sum st.subdirs →
      st.file_count = st.direct_count + subdirs_count_sum st.subdirs →
        CacheWF ((scan_entries statD b p l st).1).dir_cache ∧
        (∀ q ∈ ((scan_entries statD b p l st).1).subdirs, SubTreeWF q.2) ∧
        ((scan_entries statD b p l st).1).total_size =
          ((scan_entries statD b p l st).1).direct_size +
            subdirs_size_sum ((scan_entries statD b p l st).1).subdirs ∧
        ((scan_entries statD b p l st).1).file_count =
          ((scan_entries statD b p l st).1).direct_count +
            subdirs_count_sum ((scan_entries statD b p l st).1).subdirs)
    ?_ ?_ ?_ ?_ ?_ ?_ ?_ ?_ ?_ ?_ ?_
  · -- cache hit: the cached entry is adopted as-is
    intro p listing c f
    dsimp only
    intro cached hhit hc
    have hlk := dir_is_cached_hit_lookup statD c (dir_cache_key p b) cached hhit
    have hwf : EntryWF cached := hc _ _ hlk
    have hr : scan_directory_recursive statD b p listing c f =
        { total_size := cached.size, file_count := cached.file_count,
          subdirs := cached.subdirs, dir_cache := c, flag_fuel := f,
          stat_calls := 0, saw_cancel := false, direct_size := 0,
          direct_count := 0 } := by
      unfold scan_directory_recursive
      simp only [hhit]
    rw [hr]
    refine ⟨hc, hwf, ?_⟩
    intro hmiss
    rw [hhit] at hmiss
    simp at hmiss
  · -- os.scandir raised: zero totals cached
    intro p c f
    dsimp only
    intro hmiss hc
    cases hh : DirCache.is_cached statD c (dir_cache_key p b) with
    | mk hit data =>
      have hnothit : scan_directory_recursive statD b p none c f =
          { total_size := 0, file_count := 0, subdirs := [],
            dir_cache := DirCache.update_cache statD c (dir_cache_key p b) 0 0 [],
            flag_fuel := f, stat_calls := 0, saw_cancel := false,
            direct_size := 0, direct_count := 0 } := by
        unfold scan_directory_recursive
        dsimp only
        rw [hh]
        cases hit
        · rfl
        · cases data with
          | none => rfl
          | some cached => exact (hmiss cached hh).elim
      rw [hnothit]
      refine ⟨CacheWF_update_cache statD c _ 0 0 [] hc SubTreeWF_zero,
        SubTreeWF_zero, ?_⟩
      intro _
      simp [subdirs_size_sum, subdirs_count_sum]
  · -- entries scanned, loop exited through cancellation: no cache write
    intro p c f
    dsimp only
    intro entries st heq hmiss ih hc
    have hinit := ih hc (by simp) (by simp [subdirs_size_sum])
      (by simp [subdirs_count_sum])
    rw [heq] at hinit
    simp only at hinit
    cases hh : DirCache.is_cached statD c (dir_cache_key p b) with
    | mk hit data =>
      have hr : scan_directory_recursive statD b p (some entries) c f = st := by
        unfold scan_directory_recursive
        dsimp only
        rw [hh]
        cases hit
        · dsimp only
          rw [heq]
        · cases data with
          | none =>
            dsimp only
            rw [heq]
          | some cached => exact (hmiss cached hh).elim
      rw [hr]
      obtain ⟨h1, h2, h3, h4⟩ := hinit
      refine ⟨h1, SubTreeWF.node st.direct_size st.direct_count _ _ _ h3 h4 h2, ?_⟩
      intro _
      exact ⟨h3, h4⟩
  · -- entries scanned to completion: summary written through update_cache
    intro p c f
    dsimp only
    intro entries st heq hmiss ih hc
    have hinit := ih hc (by simp) (by simp [subdirs_size_sum])
      (by simp [subdirs_count_sum])
    rw [heq] at hinit
    simp only at hinit
    obtain ⟨h1, h2, h3, h4⟩ := hinit
    have hwf : SubTreeWF (SubTree.node st.total_size st.file_count st.subdirs) :=
      SubTreeWF.node st.direct_size st.direct_count _ _ _ h3 h4 h2
    cases hh : DirCache.is_cached statD c (dir_cache_key p b) with
    | mk hit data =>
      have hr : scan_directory_recursive statD b p (some entries) c f =
          { st with
            dir_cache := DirCache.update_cache statD st.dir_cache (dir_cache_key p b) st.total_size st.file_count st.subdirs } := by
        unfold scan_directory_recursive
        dsimp only
        rw [hh]
        cases hit
        · dsimp only
          rw [heq]
        · cases data with
          | none =>
            dsimp only
            rw [heq]
          | some cached => exact (hmiss cached hh).elim
      rw [hr]
      refine ⟨CacheWF_update_cache statD st.dir_cache _ _ _ _ h1 hwf, hwf, ?_⟩
      intro _
      exact ⟨h3, h4⟩
  · -- loop: no entries left
    intro p st
    simp only [scan_entries]
    intro hc hsub hts hfc
    exact ⟨hc, hsub, hts, hfc⟩
  · -- loop: cancellation flag observed
    intro p e rest st hf
    intro hc hsub hts hfc
    simp only [scan_entries, hf, if_true]
    exact ⟨hc, hsub, hts, hfc⟩
  · -- loop: file entry with successful stat
    intro p rest st hf
    dsimp only
    intro name fst ih hc hsub hts hfc
    have hstep := ih hc hsub (by omega) (by omega)
    simp only [scan_entries, hf, if_neg hf]
    exact hstep
  · -- loop: file entry whose stat raises
    intro p rest st hf
    dsimp only
    intro name ih hc hsub hts hfc
    have hstep := ih hc hsub (by simpa using hts) (by simpa using hfc)
    simp only [scan_entries, hf, if_neg hf]
    exact hstep
  · -- loop: entry that is neither file nor dir
    intro p rest st hf
    dsimp only
    intro name ih hc hsub hts hfc
    have hstep := ih hc hsub (by simpa using hts) (by simpa using hfc)
    simp only [scan_entries, hf, if_neg hf]
    exact hstep
  · -- loop: excluded subdirectory
    intro p rest st hf
    dsimp only
    intro name sub_listing hexc ih hc hsub hts hfc
    have hstep := ih hc hsub (by simpa using hts) (by simpa using hfc)
    simp only [scan_entries, hf, if_neg hf, hexc, if_pos hexc]
    exact hstep
  · -- loop: recursion into a subdirectory
    intro p rest st hf
    dsimp only
    intro name sub_listing hexc ih1 ih2 ih3 ih4 hc hsub hts hfc
    obtain ⟨hccache, hcwf, -⟩ := ih1 hc
    simp only [scan_entries, if_neg hf, if_neg hexc]
    by_cases hio : (scan_directory_recursive statD b (p ++ "\\" ++ name)
        sub_listing st.dir_cache (st.flag_fuel - 1)).total_size > 0 ∨
        (scan_directory_recursive statD b (p ++ "\\" ++ name) sub_listing
          st.dir_cache (st.flag_fuel - 1)).file_count > 0
    · rw [if_pos hio]
      rw [dif_pos hio] at ih4
      refine ih4 hccache ?_ ?_ ?_
      · intro q hq
        simp only [List.mem_append, List.mem_singleton] at hq
        rcases hq with hq | hq
        · exact hsub q hq
        · rw [hq]
          exact hcwf
      · try dsimp only
        rw [subdirs_size_sum_append, subdirs_size_sum_singleton]
        simp only [SubTree.size]
        omega
      · try dsimp only
        rw [subdirs_count_sum_append, subdirs_count_sum_singleton]
        simp only [SubTree.file_count]
        omega
    · rw [if_neg hio]
      rw [dif_neg hio] at ih4
      exact ih4 hccache hsub hts hfc

/-! ## Claim C8: checkpointing during the file scan -/
theorem update_from_cache_events (ms : Nat) (info : FileInfo) (st : ScanSt) :
    (update_from_cache ms info st).events = st.events ∧
    (update_from_cache ms info st).total_scanned = st.total_scanned := by
  unfold update_from_cache
  by_cases hb : info.size ≥ ms
  · rw [if_pos hb]
    by_cases hm : { info with source := "缓存" } ∈ st.large_files
    · rw [if_pos hm]
      exact ⟨rfl, rfl⟩
    · rw [if_neg hm]
      exact ⟨rfl, rfl⟩
  · rw [if_neg hb]
    exact ⟨rfl, rfl⟩

theorem scan_disk_step_inv (statF : String → Option FileStat) (now : Nat)
    (uc : Bool) (ms : Nat) (f : WalkFile) (st : ScanSt)
    (h1 : ScanEv.saveDirCache ∉ st.events)
    (h2 : st.events.count ScanEv.saveFileCache = st.total_scanned / 500) :
    ScanEv.saveDirCache ∉ (scan_disk_step statF now uc ms f st).events ∧
    (scan_disk_step statF now uc ms f st).events.count ScanEv.saveFileCache =
      (scan_disk_step statF now uc ms f st).total_scanned / 500 := by
  unfold scan_disk_step
  by_cases hl : f.isLink = true
  · rw [if_pos hl]
    exact ⟨h1, h2⟩
  · rw [if_neg hl]
    cases hhit : (if uc then ScanCache.is_cached statF st.cache_index st.cache f.path
        else (false, none)) with
    | mk hb hinfo =>
      cases hb with
      | true =>
        cases hinfo with
        | some info =>
          dsimp only
          have hu := update_from_cache_events ms info
            { st with cached_count := st.cached_count + 1 }
          refine ⟨?_, ?_⟩
          · rw [hu.1]
            exact h1
          · rw [hu.1, hu.2]
            exact h2
        | none =>
          dsimp only
          cases hstat : f.stat with
          | none => exact ⟨h1, h2⟩
          | some fst =>
            dsimp only
            by_cases hbig : fst.size ≥ ms <;>
              by_cases hul : is_useless_file f.path = true <;>
                by_cases h100 : (st.total_scanned + 1) % 100 = 0 <;>
                  by_cases h500 : (st.total_scanned + 1) % 500 = 0 <;>
                    refine ⟨by simp [h1, hbig, hul, h100, h500], ?_⟩ <;>
                    simp [List.count_append, hbig, hul, h100, h500, h2] <;>
                    omega
      | false =>
        dsimp only
        cases hstat : f.stat with
        | none => exact ⟨h1, h2⟩
        | some fst =>
          dsimp only
          by_cases hbig : fst.size ≥ ms <;>
            by_cases hul : is_useless_file f.path = true <;>
              by_cases h100 : (st.total_scanned + 1) % 100 = 0 <;>
                by_cases h500 : (st.total_scanned + 1) % 500 = 0 <;>
                  refine ⟨by simp [h1, hbig, hul, h100, h500], ?_⟩ <;>
                  simp [List.count_append, hbig, hul, h100, h500, h2] <;>
                  omega

theorem load_from_cache_loop_events (statF : String → Option FileStat) (ms : Nat) :
    ∀ (l : List (String × FileInfo)) (st : ScanSt),
      (load_from_cache_loop statF ms l st).events = st.events ∧
      (load_from_cache_loop statF ms l st).total_scanned = st.total_scanned := by
  intro l
  induction l with
  | nil => intro st; simp [load_from_cache_loop]
  | cons hd tl ih =>
    intro st
    obtain ⟨p, info⟩ := hd
    unfold load_from_cache_loop
    by_cases hf : st.scan_fuel = 0
    · rw [if_pos hf]
      exact ⟨rfl, rfl⟩
    · rw [if_neg hf]
      cases hsig : ScanCache.get_file_signature statF p with
      | none =>
        dsimp only
        exact ⟨(ih _).1, (ih _).2⟩
      | some cur =>
        dsimp only
        cases hlk : lookupStore st.cache_index p with
        | none => exact ⟨(ih _).1, (ih _).2⟩
        | some cs =>
          dsimp only
          by_cases hne : cur.signature ≠ cs.signature
          · rw [if_pos hne]
            exact ⟨(ih _).1, (ih _).2⟩
          · rw [if_neg hne]
            by_cases hb : info.size ≥ ms <;> by_cases hr : info.reason.isSome = true <;>
              simp only [hb, hr, if_true, if_false, ite_true, ite_false, if_pos, if_neg,
                not_false_iff] <;>
              exact ⟨(ih _).1, (ih _).2⟩

theorem scan_disk_loop_inv (statF : String → Option FileStat) (now : Nat)
    (uc : Bool) (ms : Nat) :
    ∀ (walk : List WalkFile) (st : ScanSt),
      ScanEv.saveDirCache ∉ st.events →
      st.events.count ScanEv.saveFileCache = st.total_scanned / 500 →
        ScanEv.saveDirCache ∉ (scan_disk_loop statF now uc ms walk st).events ∧
        (scan_disk_loop statF now uc ms walk st).events.count ScanEv.saveFileCache =
          (scan_disk_loop statF now uc ms walk st).total_scanned / 500 := by
  intro walk
  induction walk with
  | nil =>
    intro st h1 h2
    simpa [scan_disk_loop] using ⟨h1, h2⟩
  | cons f rest ih =>
    intro st h1 h2
    unfold scan_disk_loop
    by_cases hf : st.scan_fuel = 0
    · rw [if_pos hf]
      exact ⟨h1, h2⟩
    · rw [if_neg hf]
      have hstep := scan_disk_step_inv statF now uc ms f
        { st with scan_fuel := st.scan_fuel - 1 } h1 h2
      exact ih _ hstep.1 hstep.2

/-- C8 (amended): during the file scan, after every 500 processed files the
File Cache alone is persisted (one `saveFileCache` event per completed batch
of 500 processed files, plus the final save in the `finally` block); the
Directory Aggregate Cache is never persisted by `_scan_disk`. -/
theorem claim_C8_file_scan_saves_file_cache_only (statF : String → Option FileStat) (now : Nat)
    (use_cache : Bool) (min_size_mb : Nat) (walk : List WalkFile) (st0 : ScanSt) :
    ScanEv.saveDirCache ∉ (scan_disk statF now use_cache min_size_mb walk st0).events ∧
    (scan_disk statF now use_cache min_size_mb walk st0).events.count
        ScanEv.saveFileCache =
      (scan_disk statF now use_cache min_size_mb walk st0).total_scanned / 500 + 1 := by
  unfold scan_disk load_from_cache
  dsimp only
  by_cases huc : use_cache = true
  · rw [if_pos huc]
    have hload := load_from_cache_loop_events statF (min_size_mb * 1024 * 1024)
      ({ st0 with total_scanned := 0, events := [] }).cache
      { st0 with total_scanned := 0, events := [] }
    have hloop := scan_disk_loop_inv statF now use_cache (min_size_mb * 1024 * 1024)
      walk (load_from_cache_loop statF (min_size_mb * 1024 * 1024)
        ({ st0 with total_scanned := 0, events := [] }).cache
        { st0 with total_scanned := 0, events := [] })
      (by rw [hload.1]; simp) (by rw [hload.1, hload.2]; simp)
    refine ⟨?_, ?_⟩
    · simp only [List.mem_append]
      intro hmem
      rcases hmem with hmem | hmem
      · exact hloop.1 hmem
      · simp at hmem
    · rw [List.count_append, hloop.2]
      simp
  · rw [if_neg huc]
    have hloop := scan_disk_loop_inv statF now use_cache (min_size_mb * 1024 * 1024)
      walk { st0 with total_scanned := 0, events := [] } (by simp) (by simp)
    refine ⟨?_, ?_⟩
    · simp only [List.mem_append]
      intro hmem
      rcases hmem with hmem | hmem
      · exact hloop.1 hmem
      · simp at hmem
    · rw [List.count_append, hloop.2]
      simp

/-- C8 (counterexample): a full scan that processes exactly 500 files — one
complete batch — saves the File Cache but never the Directory Aggregate
Cache, contradicting the claim that both caches are persisted at each
batch boundary. -/
theorem claim_C8_counterexample :
    (scan_disk (fun _ => none) 0 false 10
        (List.replicate 500 ⟨"a", false, some ⟨1, 0⟩⟩)
        ⟨[], [], [], [], 0, 0, 1000, []⟩).total_scanned = 500 ∧
    ScanEv.saveFileCache ∈ (scan_disk (fun _ => none) 0 false 10
        (List.replicate 500 ⟨"a", false, some ⟨1, 0⟩⟩)
        ⟨[], [], [], [], 0, 0, 1000, []⟩).events ∧
    ScanEv.saveDirCache ∉ (scan_disk (fun _ => none) 0 false 10
        (List.replicate 500 ⟨"a", false, some ⟨1, 0⟩⟩)
        ⟨[], [], [], [], 0, 0, 1000, []⟩).events := by
  decide

/-- C3: every summary produced by `_scan_directory_recursive` satisfies the
aggregate invariant — its total size is the sum of the directly counted
file sizes plus the children's `size` fields, and likewise for file counts
(`SubTreeWF` states the same decomposition recursively for every nested
child summary) — and, provided every entry of the incoming directory cache
satisfies the invariant, every entry of the cache after the scan (i.e.
after every `DirCache.update_cache` write the scan performs) still does;
`DirCache.update_cache` itself preserves the property for any summary
satisfying the invariant.  The direct parts are pinned by the ghost
`direct_size`/`direct_count` accumulators whenever the directory was
actually enumerated (a cache miss). -/
theorem claim_C3_aggregate_invariant (statD : String → Option DirStat)
    (include_system : Bool) (dir_path : String) (listing : Option (List FsEntry))
    (dir_cache : Store DirCacheEntry) (flag_fuel : Nat)
    (hcache : CacheWF dir_cache) :
    CacheWF ((scan_directory_recursive statD include_system dir_path listing
        dir_cache flag_fuel).dir_cache) ∧
    SubTreeWF (SubTree.node
      (scan_directory_recursive statD include_system dir_path listing
        dir_cache flag_fuel).total_size
      (scan_directory_recursive statD include_system dir_path listing
        dir_cache flag_fuel).file_count
      (scan_directory_recursive statD include_system dir_path listing
        dir_cache flag_fuel).subdirs) ∧
    ((DirCache.is_cached statD dir_cache (dir_cache_key dir_path include_system)).1
        = false →
      (scan_directory_recursive statD include_system dir_path listing
          dir_cache flag_fuel).total_size =
        (scan_directory_recursive statD include_system dir_path listing
            dir_cache flag_fuel).direct_size +
          subdirs_size_sum (scan_directory_recursive statD include_system dir_path
            listing dir_cache flag_fuel).subdirs ∧
      (scan_directory_recursive statD include_system dir_path listing
          dir_cache flag_fuel).file_count =
        (scan_directory_recursive statD include_system dir_path listing
            dir_cache flag_fuel).direct_count +
          subdirs_count_sum (scan_directory_recursive statD include_system dir_path
            listing dir_cache flag_fuel).subdirs) ∧
    (∀ (key : String) (size file_count : Nat) (subdirs : List (String × SubTree)),
      SubTreeWF (SubTree.node size file_count subdirs) →
      CacheWF (DirCache.update_cache statD dir_cache key size file_count subdirs)) := by
  obtain ⟨h1, h2, h3⟩ := scan_aggregate_invariant statD include_system dir_path
    listing dir_cache flag_fuel hcache
  exact ⟨h1, h2, h3, fun key s fc subs hwf =>
    CacheWF_update_cache statD dir_cache key s fc subs hcache hwf⟩

theorem claim_C3_witness :
    CacheWF ([] : Store DirCacheEntry) ∧
    (CacheWF ((scan_directory_recursive (fun _ => none) true "R"
        (some [FsEntry.file "a" (some ⟨7, 0⟩)]) [] 5).dir_cache) ∧
    SubTreeWF (SubTree.node
      (scan_directory_recursive (fun _ => none) true "R"
        (some [FsEntry.file "a" (some ⟨7, 0⟩)]) [] 5).total_size
      (scan_directory_recursive (fun _ => none) true "R"
        (some [FsEntry.file "a" (some ⟨7, 0⟩)]) [] 5).file_count
      (scan_directory_recursive (fun _ => none) true "R"
        (some [FsEntry.file "a" (some ⟨7, 0⟩)]) [] 5).subdirs) ∧
    ((DirCache.is_cached (fun _ => none) [] (dir_cache_key "R" true)).1 = false →
      (scan_directory_recursive (fun _ => none) true "R"
          (some [FsEntry.file "a" (some ⟨7, 0⟩)]) [] 5).total_size =
        (scan_directory_recursive (fun _ => none) true "R"
            (some [FsEntry.file "a" (some ⟨7, 0⟩)]) [] 5).direct_size +
          subdirs_size_sum (scan_directory_recursive (fun _ => none) true "R"
            (some [FsEntry.file "a" (some ⟨7, 0⟩)]) [] 5).subdirs ∧
      (scan_directory_recursive (fun _ => none) true "R"
          (some [FsEntry.file "a" (some ⟨7, 0⟩)]) [] 5).file_count =
        (scan_directory_recursive (fun _ => none) true "R"
            (some [FsEntry.file "a" (some ⟨7, 0⟩)]) [] 5).direct_count +
          subdirs_count_sum (scan_directory_recursive (fun _ => none) true "R"
            (some [FsEntry.file "a" (some ⟨7, 0⟩)]) [] 5).subdirs) ∧
    (∀ (key : String) (size file_count : Nat) (subdirs : List (String × SubTree)),
      SubTreeWF (SubTree.node size file_count subdirs) →
      CacheWF (DirCache.update_cache (fun _ => none) [] key size file_count subdirs))) :=
  have hnil : CacheWF ([] : Store DirCacheEntry) := fun k e h => by
    simp [lookupStore] at h
  ⟨hnil, claim_C3_aggregate_invariant (fun _ => none) true "R"
    (some [FsEntry.file "a" (some ⟨7, 0⟩)]) [] 5 hnil⟩
